import Mathlib

/-
Verification of the warehouse-lifecycle error layer of lakekeeper
(crates/lakekeeper/src/service/catalog_store/{error.rs, warehouse.rs}).

The embedding is shallow: every Rust error struct becomes a Lean structure,
`Vec<String>` context stacks become `List String`, the boxed dynamic source
error becomes an explicit structure carrying its Display rendering plus a
payload standing for structural content invisible to the rendering, and each
`From` impl or method becomes a Lean function of the same name.
-/

namespace Lakekeeper

/-- Opaque warehouse identifier (UUID-like value type in the source). -/
abbrev WarehouseId := Nat

/-- Opaque project identifier. -/
abbrev ProjectId := Nat

/-- Opaque storage-secret identifier. -/
abbrev SecretIdent := Nat

/-- Opaque storage-profile configuration value (treated as opaque by this layer). -/
abbrev StorageProfile := Nat

/-- Opaque tabular-delete policy value (treated as opaque by this layer). -/
abbrev TabularDeleteProfile := Nat

/-- `WarehouseStatus` from warehouse.rs: a warehouse is either active or inactive. -/
inductive WarehouseStatus where
  | Active
  | Inactive
deriving DecidableEq, Repr

/-- `GetWarehouseResponse` from warehouse.rs: the immutable warehouse record snapshot. -/
structure GetWarehouseResponse where
  id : WarehouseId
  name : String
  project_id : ProjectId
  storage_profile : StorageProfile
  storage_secret_id : Option SecretIdent
  status : WarehouseStatus
  tabular_delete_profile : TabularDeleteProfile
  «protected» : Bool
deriving DecidableEq, Repr

/-- Model of `Box<dyn std::error::Error + Send + Sync>`: `rendered` is the text
its Display implementation produces (what `to_string()` returns); `payload`
stands for structural content of the concrete error type that does not show in
the rendering, so that two structurally different sources can render alike. -/
structure DynError where
  rendered : String
  payload : Nat
deriving DecidableEq, Repr

/-- `CatalogBackendErrorType` from error.rs. -/
inductive CatalogBackendErrorType where
  | Unexpected
  | ConcurrentModification
deriving DecidableEq, Repr

/-- strum Display of `CatalogBackendErrorType` (variant name). -/
def CatalogBackendErrorType.render : CatalogBackendErrorType → String
  | .Unexpected => "Unexpected"
  | .ConcurrentModification => "ConcurrentModification"

/-- `CatalogBackendError` from error.rs: classification, context stack, boxed source. -/
structure CatalogBackendError where
  type : CatalogBackendErrorType
  stack : List String
  source : DynError
deriving DecidableEq, Repr

/-- `CatalogBackendError::new`. -/
def CatalogBackendError.new (source : DynError) (type : CatalogBackendErrorType) :
    CatalogBackendError :=
  { type := type, stack := [], source := source }

/-- `CatalogBackendError::new_unexpected`. -/
def CatalogBackendError.new_unexpected (source : DynError) : CatalogBackendError :=
  { type := .Unexpected, stack := [], source := source }

/-- The manual `PartialEq` impl for `CatalogBackendError` in error.rs: compares
the classification, the stack, and the string rendering of the source. -/
def CatalogBackendError.eq (a b : CatalogBackendError) : Bool :=
  a.type == b.type && a.stack == b.stack && a.source.rendered == b.source.rendered

/-- `CatalogBackendError.append_details` (error.rs, `impl_error_stack_methods`):
`self.stack.extend(details)`. -/
def CatalogBackendError.append_details (e : CatalogBackendError) (details : List String) :
    CatalogBackendError :=
  { e with stack := e.stack ++ details }

/-- `CatalogBackendError.append_detail`: `self.stack.push(detail)`. -/
def CatalogBackendError.append_detail (e : CatalogBackendError) (detail : String) :
    CatalogBackendError :=
  { e with stack := e.stack ++ [detail] }

/-- `CatalogBackendError.append_details_mut`: in-place variant, same stack update. -/
def CatalogBackendError.append_details_mut (e : CatalogBackendError) (details : List String) :
    CatalogBackendError :=
  { e with stack := e.stack ++ details }

/-- `CatalogBackendError.append_detail_mut`: in-place variant, same stack update. -/
def CatalogBackendError.append_detail_mut (e : CatalogBackendError) (detail : String) :
    CatalogBackendError :=
  { e with stack := e.stack ++ [detail] }

/-- `DatabaseIntegrityError` from error.rs. -/
structure DatabaseIntegrityError where
  message : String
  stack : List String
deriving DecidableEq, Repr

/-- `DatabaseIntegrityError::new`. -/
def DatabaseIntegrityError.new (message : String) : DatabaseIntegrityError :=
  { message := message, stack := [] }

/-- `DatabaseIntegrityError.append_details`. -/
def DatabaseIntegrityError.append_details (e : DatabaseIntegrityError) (details : List String) :
    DatabaseIntegrityError :=
  { e with stack := e.stack ++ details }

/-- `DatabaseIntegrityError.append_detail`. -/
def DatabaseIntegrityError.append_detail (e : DatabaseIntegrityError) (detail : String) :
    DatabaseIntegrityError :=
  { e with stack := e.stack ++ [detail] }

/-- `DatabaseIntegrityError.append_details_mut`. -/
def DatabaseIntegrityError.append_details_mut (e : DatabaseIntegrityError) (details : List String) :
    DatabaseIntegrityError :=
  { e with stack := e.stack ++ details }

/-- `DatabaseIntegrityError.append_detail_mut`. -/
def DatabaseIntegrityError.append_detail_mut (e : DatabaseIntegrityError) (detail : String) :
    DatabaseIntegrityError :=
  { e with stack := e.stack ++ [detail] }

/-- `WarehouseIdNotFound` from warehouse.rs. -/
structure WarehouseIdNotFound where
  warehouse_id : WarehouseId
  stack : List String
deriving DecidableEq, Repr

/-- `WarehouseIdNotFound::new`. -/
def WarehouseIdNotFound.new (warehouse_id : WarehouseId) : WarehouseIdNotFound :=
  { warehouse_id := warehouse_id, stack := [] }

/-- thiserror Display of `WarehouseIdNotFound`. -/
def WarehouseIdNotFound.render (e : WarehouseIdNotFound) : String :=
  "A warehouse with id '" ++ toString e.warehouse_id ++ "' does not exist"

/-- `WarehouseIdNotFound.append_details`. -/
def WarehouseIdNotFound.append_details (e : WarehouseIdNotFound) (details : List String) :
    WarehouseIdNotFound :=
  { e with stack := e.stack ++ details }

/-- `WarehouseIdNotFound.append_detail`. -/
def WarehouseIdNotFound.append_detail (e : WarehouseIdNotFound) (detail : String) :
    WarehouseIdNotFound :=
  { e with stack := e.stack ++ [detail] }

/-- `WarehouseIdNotFound.append_details_mut`. -/
def WarehouseIdNotFound.append_details_mut (e : WarehouseIdNotFound) (details : List String) :
    WarehouseIdNotFound :=
  { e with stack := e.stack ++ details }

/-- `WarehouseIdNotFound.append_detail_mut`. -/
def WarehouseIdNotFound.append_detail_mut (e : WarehouseIdNotFound) (detail : String) :
    WarehouseIdNotFound :=
  { e with stack := e.stack ++ [detail] }

/-- `WarehouseAlreadyExists` from warehouse.rs. -/
structure WarehouseAlreadyExists where
  warehouse_name : String
  project_id : ProjectId
  stack : List String
deriving DecidableEq, Repr

/-- `WarehouseAlreadyExists::new`. -/
def WarehouseAlreadyExists.new (warehouse_name : String) (project_id : ProjectId) :
    WarehouseAlreadyExists :=
  { warehouse_name := warehouse_name, project_id := project_id, stack := [] }

/-- thiserror Display of `WarehouseAlreadyExists`. -/
def WarehouseAlreadyExists.render (e : WarehouseAlreadyExists) : String :=
  "A warehouse with the name '" ++ e.warehouse_name ++
    "' already exists in project with id '" ++ toString e.project_id ++ "'"

/-- `WarehouseAlreadyExists.append_details`. -/
def WarehouseAlreadyExists.append_details (e : WarehouseAlreadyExists) (details : List String) :
    WarehouseAlreadyExists :=
  { e with stack := e.stack ++ details }

/-- `WarehouseAlreadyExists.append_detail`. -/
def WarehouseAlreadyExists.append_detail (e : WarehouseAlreadyExists) (detail : String) :
    WarehouseAlreadyExists :=
  { e with stack := e.stack ++ [detail] }

/-- `WarehouseAlreadyExists.append_details_mut`. -/
def WarehouseAlreadyExists.append_details_mut (e : WarehouseAlreadyExists)
    (details : List String) : WarehouseAlreadyExists :=
  { e with stack := e.stack ++ details }

/-- `WarehouseAlreadyExists.append_detail_mut`. -/
def WarehouseAlreadyExists.append_detail_mut (e : WarehouseAlreadyExists) (detail : String) :
    WarehouseAlreadyExists :=
  { e with stack := e.stack ++ [detail] }

/-- `StorageProfileSerializationError` from warehouse.rs: wraps a `serde_json::Error`. -/
structure StorageProfileSerializationError where
  source : DynError
  stack : List String
deriving DecidableEq, Repr

/-- `impl From<serde_json::Error> for StorageProfileSerializationError`. -/
def StorageProfileSerializationError.from_serde_error (source : DynError) :
    StorageProfileSerializationError :=
  { source := source, stack := [] }

/-- thiserror Display of `StorageProfileSerializationError`. -/
def StorageProfileSerializationError.render (e : StorageProfileSerializationError) : String :=
  "Error serializing storage profile: " ++ e.source.rendered

/-- `StorageProfileSerializationError.append_details`. -/
def StorageProfileSerializationError.append_details (e : StorageProfileSerializationError)
    (details : List String) : StorageProfileSerializationError :=
  { e with stack := e.stack ++ details }

/-- `StorageProfileSerializationError.append_detail`. -/
def StorageProfileSerializationError.append_detail (e : StorageProfileSerializationError)
    (detail : String) : StorageProfileSerializationError :=
  { e with stack := e.stack ++ [detail] }

/-- `StorageProfileSerializationError.append_details_mut`. -/
def StorageProfileSerializationError.append_details_mut (e : StorageProfileSerializationError)
    (details : List String) : StorageProfileSerializationError :=
  { e with stack := e.stack ++ details }

/-- `StorageProfileSerializationError.append_detail_mut`. -/
def StorageProfileSerializationError.append_detail_mut (e : StorageProfileSerializationError)
    (detail : String) : StorageProfileSerializationError :=
  { e with stack := e.stack ++ [detail] }

/-- `ProjectIdNotFoundError` from warehouse.rs. -/
structure ProjectIdNotFoundError where
  project_id : ProjectId
  stack : List String
deriving DecidableEq, Repr

/-- `ProjectIdNotFoundError::new`. -/
def ProjectIdNotFoundError.new (project_id : ProjectId) : ProjectIdNotFoundError :=
  { project_id := project_id, stack := [] }

/-- thiserror Display of `ProjectIdNotFoundError`. -/
def ProjectIdNotFoundError.render (e : ProjectIdNotFoundError) : String :=
  "Project with id '" ++ toString e.project_id ++ "' not found"

/-- `ProjectIdNotFoundError.append_details`. -/
def ProjectIdNotFoundError.append_details (e : ProjectIdNotFoundError) (details : List String) :
    ProjectIdNotFoundError :=
  { e with stack := e.stack ++ details }

/-- `ProjectIdNotFoundError.append_detail`. -/
def ProjectIdNotFoundError.append_detail (e : ProjectIdNotFoundError) (detail : String) :
    ProjectIdNotFoundError :=
  { e with stack := e.stack ++ [detail] }

/-- `ProjectIdNotFoundError.append_details_mut`. -/
def ProjectIdNotFoundError.append_details_mut (e : ProjectIdNotFoundError)
    (details : List String) : ProjectIdNotFoundError :=
  { e with stack := e.stack ++ details }

/-- `ProjectIdNotFoundError.append_detail_mut`. -/
def ProjectIdNotFoundError.append_detail_mut (e : ProjectIdNotFoundError) (detail : String) :
    ProjectIdNotFoundError :=
  { e with stack := e.stack ++ [detail] }

/-- `WarehouseHasUnfinishedTasks` (warehouse.rs, `define_simple_error`): only a stack. -/
structure WarehouseHasUnfinishedTasks where
  stack : List String
deriving DecidableEq, Repr

/-- `WarehouseHasUnfinishedTasks::new`. -/
def WarehouseHasUnfinishedTasks.new : WarehouseHasUnfinishedTasks :=
  { stack := [] }

/-- Display message of `WarehouseHasUnfinishedTasks` from `define_simple_error`. -/
def WarehouseHasUnfinishedTasks.render (_ : WarehouseHasUnfinishedTasks) : String :=
  "Warehouse has unfinished tasks. Cannot delete warehouse until all tasks are finished."

/-- `WarehouseHasUnfinishedTasks.append_details`. -/
def WarehouseHasUnfinishedTasks.append_details (e : WarehouseHasUnfinishedTasks)
    (details : List String) : WarehouseHasUnfinishedTasks :=
  { e with stack := e.stack ++ details }

/-- `WarehouseHasUnfinishedTasks.append_detail`. -/
def WarehouseHasUnfinishedTasks.append_detail (e : WarehouseHasUnfinishedTasks)
    (detail : String) : WarehouseHasUnfinishedTasks :=
  { e with stack := e.stack ++ [detail] }

/-- `WarehouseHasUnfinishedTasks.append_details_mut`. -/
def WarehouseHasUnfinishedTasks.append_details_mut (e : WarehouseHasUnfinishedTasks)
    (details : List String) : WarehouseHasUnfinishedTasks :=
  { e with stack := e.stack ++ details }

/-- `WarehouseHasUnfinishedTasks.append_detail_mut`. -/
def WarehouseHasUnfinishedTasks.append_detail_mut (e : WarehouseHasUnfinishedTasks)
    (detail : String) : WarehouseHasUnfinishedTasks :=
  { e with stack := e.stack ++ [detail] }

/-- `WarehouseNotEmpty` (warehouse.rs, `define_simple_error`). -/
structure WarehouseNotEmpty where
  stack : List String
deriving DecidableEq, Repr

/-- `WarehouseNotEmpty::new`. -/
def WarehouseNotEmpty.new : WarehouseNotEmpty :=
  { stack := [] }

/-- Display message of `WarehouseNotEmpty` from `define_simple_error`. -/
def WarehouseNotEmpty.render (_ : WarehouseNotEmpty) : String :=
  "Warehouse is not empty. Cannot delete a non-empty warehouse."

/-- `WarehouseNotEmpty.append_details`. -/
def WarehouseNotEmpty.append_details (e : WarehouseNotEmpty) (details : List String) :
    WarehouseNotEmpty :=
  { e with stack := e.stack ++ details }

/-- `WarehouseNotEmpty.append_detail`. -/
def WarehouseNotEmpty.append_detail (e : WarehouseNotEmpty) (detail : String) :
    WarehouseNotEmpty :=
  { e with stack := e.stack ++ [detail] }

/-- `WarehouseNotEmpty.append_details_mut`. -/
def WarehouseNotEmpty.append_details_mut (e : WarehouseNotEmpty) (details : List String) :
    WarehouseNotEmpty :=
  { e with stack := e.stack ++ details }

/-- `WarehouseNotEmpty.append_detail_mut`. -/
def WarehouseNotEmpty.append_detail_mut (e : WarehouseNotEmpty) (detail : String) :
    WarehouseNotEmpty :=
  { e with stack := e.stack ++ [detail] }

/-- `WarehouseProtected` (warehouse.rs, `define_simple_error`). -/
structure WarehouseProtected where
  stack : List String
deriving DecidableEq, Repr

/-- `WarehouseProtected::new`. -/
def WarehouseProtected.new : WarehouseProtected :=
  { stack := [] }

/-- Display message of `WarehouseProtected` from `define_simple_error`. -/
def WarehouseProtected.render (_ : WarehouseProtected) : String :=
  "Warehouse is protected and force flag not set. Cannot delete protected warehouse."

/-- `WarehouseProtected.append_details`. -/
def WarehouseProtected.append_details (e : WarehouseProtected) (details : List String) :
    WarehouseProtected :=
  { e with stack := e.stack ++ details }

/-- `WarehouseProtected.append_detail`. -/
def WarehouseProtected.append_detail (e : WarehouseProtected) (detail : String) :
    WarehouseProtected :=
  { e with stack := e.stack ++ [detail] }

/-- `WarehouseProtected.append_details_mut`. -/
def WarehouseProtected.append_details_mut (e : WarehouseProtected) (details : List String) :
    WarehouseProtected :=
  { e with stack := e.stack ++ details }

/-- `WarehouseProtected.append_detail_mut`. -/
def WarehouseProtected.append_detail_mut (e : WarehouseProtected) (detail : String) :
    WarehouseProtected :=
  { e with stack := e.stack ++ [detail] }

/-- HTTP status codes used by the translation layer (`http::StatusCode`). -/
def StatusCode.INTERNAL_SERVER_ERROR : Nat := 500

/-- `StatusCode::CONFLICT`. -/
def StatusCode.CONFLICT : Nat := 409

/-- `StatusCode::NOT_FOUND`. -/
def StatusCode.NOT_FOUND : Nat := 404

/-- `StatusCode::SERVICE_UNAVAILABLE` (never produced by this layer). -/
def StatusCode.SERVICE_UNAVAILABLE : Nat := 503

/-- The uniform wire error record (`iceberg_ext::catalog::rest::ErrorModel` as used
by this layer): string type tag, numeric status, rendered message, context stack,
optional boxed chained source. -/
structure ErrorModel where
  type : String
  code : Nat
  message : String
  stack : List String
  source : Option DynError
deriving DecidableEq, Repr

/-- `impl From<CatalogBackendError> for ErrorModel` (error.rs): the code is 500 for
`Unexpected` and 409 for `ConcurrentModification`; tag `CatalogBackendError`; no
wire source. -/
def CatalogBackendError.toErrorModel (err : Lakekeeper.CatalogBackendError) : ErrorModel :=
  let code := match err.type with
    | .Unexpected => StatusCode.INTERNAL_SERVER_ERROR
    | .ConcurrentModification => StatusCode.CONFLICT
  { type := "CatalogBackendError"
    code := code
    message := "Catalog backend error (" ++ err.type.render ++ "): " ++ err.source.rendered
    stack := err.stack
    source := none }

/-- `impl From<DatabaseIntegrityError> for ErrorModel` (error.rs). -/
def DatabaseIntegrityError.toErrorModel (err : Lakekeeper.DatabaseIntegrityError) : ErrorModel :=
  { type := "DatabaseIntegrityError"
    code := StatusCode.INTERNAL_SERVER_ERROR
    message := "Database integrity error: " ++ err.message
    stack := err.stack
    source := none }

/-- `impl From<WarehouseIdNotFound> for ErrorModel` (warehouse.rs). -/
def WarehouseIdNotFound.toErrorModel (err : Lakekeeper.WarehouseIdNotFound) : ErrorModel :=
  { type := "WarehouseNotFound"
    code := StatusCode.NOT_FOUND
    message := err.render
    stack := err.stack
    source := none }

/-- `CatalogCreateWarehouseError` (warehouse.rs): closed error set of create. -/
inductive CatalogCreateWarehouseError where
  | WarehouseAlreadyExists (e : WarehouseAlreadyExists)
  | CatalogBackendError (e : CatalogBackendError)
  | StorageProfileSerializationError (e : StorageProfileSerializationError)
  | ProjectIdNotFoundError (e : ProjectIdNotFoundError)
deriving DecidableEq, Repr

/-- `CREATE_ERROR_STACK` constant from warehouse.rs. -/
def CREATE_ERROR_STACK : String := "Error creating warehouse in catalog"

/-- `impl_from_with_detail!(CatalogBackendError => CatalogCreateWarehouseError::CatalogBackendError, CREATE_ERROR_STACK)`. -/
def CatalogCreateWarehouseError.from_catalog_backend_error (err : Lakekeeper.CatalogBackendError) :
    CatalogCreateWarehouseError :=
  .CatalogBackendError (err.append_detail CREATE_ERROR_STACK)

/-- `impl_from_with_detail!` for `StorageProfileSerializationError` into create. -/
def CatalogCreateWarehouseError.from_storage_profile_serialization_error
    (err : Lakekeeper.StorageProfileSerializationError) : CatalogCreateWarehouseError :=
  .StorageProfileSerializationError (err.append_detail CREATE_ERROR_STACK)

/-- `impl_from_with_detail!` for `ProjectIdNotFoundError` into create. -/
def CatalogCreateWarehouseError.from_project_id_not_found_error (err : Lakekeeper.ProjectIdNotFoundError) :
    CatalogCreateWarehouseError :=
  .ProjectIdNotFoundError (err.append_detail CREATE_ERROR_STACK)

/-- `impl_from_with_detail!` for `WarehouseAlreadyExists` into create. -/
def CatalogCreateWarehouseError.from_warehouse_already_exists (err : Lakekeeper.WarehouseAlreadyExists) :
    CatalogCreateWarehouseError :=
  .WarehouseAlreadyExists (err.append_detail CREATE_ERROR_STACK)

/-- `impl From<CatalogCreateWarehouseError> for ErrorModel` (warehouse.rs). -/
def CatalogCreateWarehouseError.toErrorModel : CatalogCreateWarehouseError → ErrorModel
  | .WarehouseAlreadyExists e =>
    { type := "WarehouseAlreadyExists"
      code := StatusCode.CONFLICT
      message := e.render
      stack := e.stack
      source := none }
  | .CatalogBackendError e => e.toErrorModel
  | .StorageProfileSerializationError e =>
    { type := "StorageProfileSerializationError"
      code := StatusCode.INTERNAL_SERVER_ERROR
      message := e.render
      stack := e.stack
      source := some e.source }
  | .ProjectIdNotFoundError e =>
    { type := "ProjectNotFound"
      code := StatusCode.NOT_FOUND
      message := e.render
      stack := e.stack
      source := none }

/-- `CatalogDeleteWarehouseError` (warehouse.rs): closed error set of delete. -/
inductive CatalogDeleteWarehouseError where
  | CatalogBackendError (e : CatalogBackendError)
  | WarehouseHasUnfinishedTasks (e : WarehouseHasUnfinishedTasks)
  | WarehouseIdNotFound (e : WarehouseIdNotFound)
  | WarehouseNotEmpty (e : WarehouseNotEmpty)
  | WarehouseProtected (e : WarehouseProtected)
deriving DecidableEq, Repr

/-- `DELETE_ERROR_STACK` constant from warehouse.rs. -/
def DELETE_ERROR_STACK : String := "Error deleting warehouse in catalog"

/-- `impl_from_with_detail!` for `CatalogBackendError` into delete. -/
def CatalogDeleteWarehouseError.from_catalog_backend_error (err : Lakekeeper.CatalogBackendError) :
    CatalogDeleteWarehouseError :=
  .CatalogBackendError (err.append_detail DELETE_ERROR_STACK)

/-- `impl_from_with_detail!` for `WarehouseHasUnfinishedTasks` into delete. -/
def CatalogDeleteWarehouseError.from_warehouse_has_unfinished_tasks
    (err : Lakekeeper.WarehouseHasUnfinishedTasks) : CatalogDeleteWarehouseError :=
  .WarehouseHasUnfinishedTasks (err.append_detail DELETE_ERROR_STACK)

/-- `impl_from_with_detail!` for `WarehouseIdNotFound` into delete. -/
def CatalogDeleteWarehouseError.from_warehouse_id_not_found (err : Lakekeeper.WarehouseIdNotFound) :
    CatalogDeleteWarehouseError :=
  .WarehouseIdNotFound (err.append_detail DELETE_ERROR_STACK)

/-- `impl_from_with_detail!` for `WarehouseNotEmpty` into delete. -/
def CatalogDeleteWarehouseError.from_warehouse_not_empty (err : Lakekeeper.WarehouseNotEmpty) :
    CatalogDeleteWarehouseError :=
  .WarehouseNotEmpty (err.append_detail DELETE_ERROR_STACK)

/-- `impl_from_with_detail!` for `WarehouseProtected` into delete. -/
def CatalogDeleteWarehouseError.from_warehouse_protected (err : Lakekeeper.WarehouseProtected) :
    CatalogDeleteWarehouseError :=
  .WarehouseProtected (err.append_detail DELETE_ERROR_STACK)

/-- `impl From<CatalogDeleteWarehouseError> for ErrorModel` (warehouse.rs). -/
def CatalogDeleteWarehouseError.toErrorModel : CatalogDeleteWarehouseError → ErrorModel
  | .WarehouseHasUnfinishedTasks e =>
    { type := "WarehouseHasUnfinishedTasks"
      code := StatusCode.CONFLICT
      message := e.render
      stack := e.stack
      source := none }
  | .WarehouseIdNotFound e => e.toErrorModel
  | .WarehouseNotEmpty e =>
    { type := "WarehouseNotEmpty"
      code := StatusCode.CONFLICT
      message := e.render
      stack := e.stack
      source := none }
  | .WarehouseProtected e =>
    { type := "WarehouseProtected"
      code := StatusCode.CONFLICT
      message := e.render
      stack := e.stack
      source := none }
  | .CatalogBackendError e => e.toErrorModel

/-- `CatalogRenameWarehouseError` (warehouse.rs): closed error set of rename. -/
inductive CatalogRenameWarehouseError where
  | CatalogBackendError (e : CatalogBackendError)
  | WarehouseIdNotFound (e : WarehouseIdNotFound)
deriving DecidableEq, Repr

/-- `RENAME_ERROR_STACK` constant from warehouse.rs. -/
def RENAME_ERROR_STACK : String := "Error renaming warehouse in catalog"

/-- `impl_from_with_detail!` for `CatalogBackendError` into rename. -/
def CatalogRenameWarehouseError.from_catalog_backend_error (err : Lakekeeper.CatalogBackendError) :
    CatalogRenameWarehouseError :=
  .CatalogBackendError (err.append_detail RENAME_ERROR_STACK)

/-- `impl_from_with_detail!` for `WarehouseIdNotFound` into rename. -/
def CatalogRenameWarehouseError.from_warehouse_id_not_found (err : Lakekeeper.WarehouseIdNotFound) :
    CatalogRenameWarehouseError :=
  .WarehouseIdNotFound (err.append_detail RENAME_ERROR_STACK)

/-- `impl From<CatalogRenameWarehouseError> for ErrorModel` (warehouse.rs). -/
def CatalogRenameWarehouseError.toErrorModel : CatalogRenameWarehouseError → ErrorModel
  | .WarehouseIdNotFound e => e.toErrorModel
  | .CatalogBackendError e => e.toErrorModel

/-- `CatalogListWarehousesError` (warehouse.rs): closed error set of list. -/
inductive CatalogListWarehousesError where
  | CatalogBackendError (e : CatalogBackendError)
  | DatabaseIntegrityError (e : DatabaseIntegrityError)
deriving DecidableEq, Repr

/-- `LIST_ERROR_STACK` constant from warehouse.rs. -/
def LIST_ERROR_STACK : String := "Error listing warehouses in catalog"

/-- `impl_from_with_detail!` for `CatalogBackendError` into list. -/
def CatalogListWarehousesError.from_catalog_backend_error (err : Lakekeeper.CatalogBackendError) :
    CatalogListWarehousesError :=
  .CatalogBackendError (err.append_detail LIST_ERROR_STACK)

/-- `impl_from_with_detail!` for `DatabaseIntegrityError` into list. -/
def CatalogListWarehousesError.from_database_integrity_error (err : Lakekeeper.DatabaseIntegrityError) :
    CatalogListWarehousesError :=
  .DatabaseIntegrityError (err.append_detail LIST_ERROR_STACK)

/-- `impl From<CatalogListWarehousesError> for ErrorModel` (warehouse.rs). -/
def CatalogListWarehousesError.toErrorModel : CatalogListWarehousesError → ErrorModel
  | .DatabaseIntegrityError e => e.toErrorModel
  | .CatalogBackendError e => e.toErrorModel

/-- `CatalogGetWarehouseByIdError` (warehouse.rs): closed error set of get-by-id. -/
inductive CatalogGetWarehouseByIdError where
  | CatalogBackendError (e : CatalogBackendError)
  | DatabaseIntegrityError (e : DatabaseIntegrityError)
  | WarehouseIdNotFound (e : WarehouseIdNotFound)
deriving DecidableEq, Repr

/-- `CatalogGetWarehouseByIdError::append_detail` (warehouse.rs): dispatches the
detail to the stack of whichever variant is present. -/
def CatalogGetWarehouseByIdError.append_detail (self : CatalogGetWarehouseByIdError)
    (detail : String) : CatalogGetWarehouseByIdError :=
  match self with
  | .CatalogBackendError e => .CatalogBackendError (e.append_detail_mut detail)
  | .DatabaseIntegrityError e => .DatabaseIntegrityError (e.append_detail_mut detail)
  | .WarehouseIdNotFound e => .WarehouseIdNotFound (e.append_detail_mut detail)

/-- `GET_ERROR_STACK` constant from warehouse.rs. -/
def GET_ERROR_STACK : String := "Error getting warehouse by id in catalog"

/-- `impl_from_with_detail!` for `CatalogBackendError` into get-by-id. -/
def CatalogGetWarehouseByIdError.from_catalog_backend_error (err : Lakekeeper.CatalogBackendError) :
    CatalogGetWarehouseByIdError :=
  .CatalogBackendError (err.append_detail GET_ERROR_STACK)

/-- `impl_from_with_detail!` for `DatabaseIntegrityError` into get-by-id. -/
def CatalogGetWarehouseByIdError.from_database_integrity_error (err : Lakekeeper.DatabaseIntegrityError) :
    CatalogGetWarehouseByIdError :=
  .DatabaseIntegrityError (err.append_detail GET_ERROR_STACK)

/-- `impl_from_with_detail!` for `WarehouseIdNotFound` into get-by-id. -/
def CatalogGetWarehouseByIdError.from_warehouse_id_not_found (err : Lakekeeper.WarehouseIdNotFound) :
    CatalogGetWarehouseByIdError :=
  .WarehouseIdNotFound (err.append_detail GET_ERROR_STACK)

/-- `impl From<CatalogGetWarehouseByIdError> for ErrorModel` (warehouse.rs). -/
def CatalogGetWarehouseByIdError.toErrorModel : CatalogGetWarehouseByIdError → ErrorModel
  | .DatabaseIntegrityError e => e.toErrorModel
  | .CatalogBackendError e => e.toErrorModel
  | .WarehouseIdNotFound e => e.toErrorModel

/-- `CatalogWarehouseOps::require_warehouse_by_id` (warehouse.rs): a wrapper over
`get_warehouse_by_id` whose result is passed in explicitly (the backend impl is an
external collaborator). The source is
`Self::get_warehouse_by_id(warehouse_id, state).await?
  .ok_or(WarehouseIdNotFound::new(warehouse_id).into())`:
the `?` re-raises a get error unchanged, an empty result becomes the `From`
conversion of a fresh `WarehouseIdNotFound` carrying the requested id, and a
present record is returned as-is. -/
def require_warehouse_by_id (warehouse_id : WarehouseId)
    (get_result : Except CatalogGetWarehouseByIdError (Option GetWarehouseResponse)) :
    Except CatalogGetWarehouseByIdError GetWarehouseResponse :=
  match get_result with
  | .error e => .error e
  | .ok none =>
    .error (CatalogGetWarehouseByIdError.from_warehouse_id_not_found
      (WarehouseIdNotFound.new warehouse_id))
  | .ok (some r) => .ok r

/-- Modelled from the spec: `list_warehouses_impl`, the backend body behind
`CatalogWarehouseOps::list_warehouses`, is not among the provided sources (the
trait method in warehouse.rs only delegates to it). Per the spec and the trait
doc comment: if the status set is `none` only Active warehouses of the project
are returned; if it is `some statuses` the warehouses of the project with any
of the statuses in the set are returned. The read state is modelled as the
sequence of stored warehouse records. -/
def list_warehouses (project_id : ProjectId)
    (include_inactive : Option (List WarehouseStatus))
    (state : List GetWarehouseResponse) : List GetWarehouseResponse :=
  let statuses := include_inactive.getD [WarehouseStatus.Active]
  state.filter (fun w => w.project_id == project_id && statuses.contains w.status)

/-- C1: every warehouse-lifecycle error converts to the wire `ErrorModel` with
exactly the type tag and numeric status of the §4.5 table — backend errors map to
tag `CatalogBackendError` with 500 (Unexpected) or 409 (ConcurrentModification),
integrity errors to `DatabaseIntegrityError`/500, id-not-found to
`WarehouseNotFound`/404, already-exists to `WarehouseAlreadyExists`/409,
project-not-found to `ProjectNotFound`/404, serialization failures to
`StorageProfileSerializationError`/500, and the three delete guards to their own
tags with 409 — and wrapping in any per-operation enum preserves these codes
(the enum conversions delegate to the same wire records). -/
theorem c1_wire_error_table :
    (∀ (st : List String) (src : DynError),
      (CatalogBackendError.mk .Unexpected st src).toErrorModel.type =
          "CatalogBackendError" ∧
        (CatalogBackendError.mk .Unexpected st src).toErrorModel.code = 500) ∧
    (∀ (st : List String) (src : DynError),
      (CatalogBackendError.mk .ConcurrentModification st src).toErrorModel.type =
          "CatalogBackendError" ∧
        (CatalogBackendError.mk .ConcurrentModification st src).toErrorModel.code = 409) ∧
    (∀ e : DatabaseIntegrityError,
      e.toErrorModel.type = "DatabaseIntegrityError" ∧ e.toErrorModel.code = 500) ∧
    (∀ e : WarehouseIdNotFound,
      e.toErrorModel.type = "WarehouseNotFound" ∧ e.toErrorModel.code = 404) ∧
    (∀ e : WarehouseAlreadyExists,
      (CatalogCreateWarehouseError.WarehouseAlreadyExists e).toErrorModel.type =
          "WarehouseAlreadyExists" ∧
        (CatalogCreateWarehouseError.WarehouseAlreadyExists e).toErrorModel.code = 409) ∧
    (∀ e : ProjectIdNotFoundError,
      (CatalogCreateWarehouseError.ProjectIdNotFoundError e).toErrorModel.type =
          "ProjectNotFound" ∧
        (CatalogCreateWarehouseError.ProjectIdNotFoundError e).toErrorModel.code = 404) ∧
    (∀ e : StorageProfileSerializationError,
      (CatalogCreateWarehouseError.StorageProfileSerializationError e).toErrorModel.type =
          "StorageProfileSerializationError" ∧
        (CatalogCreateWarehouseError.StorageProfileSerializationError e).toErrorModel.code =
          500) ∧
    (∀ e : WarehouseHasUnfinishedTasks,
      (CatalogDeleteWarehouseError.WarehouseHasUnfinishedTasks e).toErrorModel.type =
          "WarehouseHasUnfinishedTasks" ∧
        (CatalogDeleteWarehouseError.WarehouseHasUnfinishedTasks e).toErrorModel.code = 409) ∧
    (∀ e : WarehouseNotEmpty,
      (CatalogDeleteWarehouseError.WarehouseNotEmpty e).toErrorModel.type =
          "WarehouseNotEmpty" ∧
        (CatalogDeleteWarehouseError.WarehouseNotEmpty e).toErrorModel.code = 409) ∧
    (∀ e : WarehouseProtected,
      (CatalogDeleteWarehouseError.WarehouseProtected e).toErrorModel.type =
          "WarehouseProtected" ∧
        (CatalogDeleteWarehouseError.WarehouseProtected e).toErrorModel.code = 409) ∧
    (∀ e : CatalogBackendError,
      (CatalogCreateWarehouseError.CatalogBackendError e).toErrorModel = e.toErrorModel ∧
      (CatalogDeleteWarehouseError.CatalogBackendError e).toErrorModel = e.toErrorModel ∧
      (CatalogRenameWarehouseError.CatalogBackendError e).toErrorModel = e.toErrorModel ∧
      (CatalogListWarehousesError.CatalogBackendError e).toErrorModel = e.toErrorModel ∧
      (CatalogGetWarehouseByIdError.CatalogBackendError e).toErrorModel = e.toErrorModel) ∧
    (∀ e : DatabaseIntegrityError,
      (CatalogListWarehousesError.DatabaseIntegrityError e).toErrorModel = e.toErrorModel ∧
      (CatalogGetWarehouseByIdError.DatabaseIntegrityError e).toErrorModel = e.toErrorModel) ∧
    (∀ e : WarehouseIdNotFound,
      (CatalogDeleteWarehouseError.WarehouseIdNotFound e).toErrorModel = e.toErrorModel ∧
      (CatalogRenameWarehouseError.WarehouseIdNotFound e).toErrorModel = e.toErrorModel ∧
      (CatalogGetWarehouseByIdError.WarehouseIdNotFound e).toErrorModel = e.toErrorModel) :=
  ⟨fun _ _ => ⟨rfl, rfl⟩, fun _ _ => ⟨rfl, rfl⟩, fun _ => ⟨rfl, rfl⟩, fun _ => ⟨rfl, rfl⟩,
    fun _ => ⟨rfl, rfl⟩, fun _ => ⟨rfl, rfl⟩, fun _ => ⟨rfl, rfl⟩, fun _ => ⟨rfl, rfl⟩,
    fun _ => ⟨rfl, rfl⟩, fun _ => ⟨rfl, rfl⟩, fun _ => ⟨rfl, rfl, rfl, rfl, rfl⟩,
    fun _ => ⟨rfl, rfl⟩, fun _ => ⟨rfl, rfl, rfl⟩⟩

/-- C2: a backend error's wire status is 500 for `Unexpected` and 409 for
`ConcurrentModification`, is never 503, and depends only on the classification —
in particular two backend errors whose sources render identically but whose
classifications differ map to 409 and 500 respectively. -/
theorem c2_backend_classification_determines_code :
    (∀ e : CatalogBackendError, e.toErrorModel.code ≠ StatusCode.SERVICE_UNAVAILABLE) ∧
    (∀ (st : List String) (src : DynError),
      (CatalogBackendError.mk .Unexpected st src).toErrorModel.code = 500) ∧
    (∀ (st : List String) (src : DynError),
      (CatalogBackendError.mk .ConcurrentModification st src).toErrorModel.code = 409) ∧
    (∀ e1 e2 : CatalogBackendError, e1.type = e2.type →
      e1.toErrorModel.code = e2.toErrorModel.code) ∧
    (∀ e1 e2 : CatalogBackendError, e1.source.rendered = e2.source.rendered →
      e1.type = .ConcurrentModification → e2.type = .Unexpected →
      e1.toErrorModel.code = 409 ∧ e2.toErrorModel.code = 500) := by
  refine ⟨?_, fun _ _ => rfl, fun _ _ => rfl, ?_, ?_⟩
  · intro e
    obtain ⟨ty, st, src⟩ := e
    cases ty <;>
      simp [CatalogBackendError.toErrorModel, StatusCode.SERVICE_UNAVAILABLE,
        StatusCode.INTERNAL_SERVER_ERROR, StatusCode.CONFLICT]
  · intro e1 e2 h
    simp only [CatalogBackendError.toErrorModel, h]
  · intro e1 e2 _ h1 h2
    exact ⟨by simp only [CatalogBackendError.toErrorModel, h1]; rfl,
      by simp only [CatalogBackendError.toErrorModel, h2]; rfl⟩

/-- Witness for C2 at concrete inputs: two backend errors with the same source
rendering but different classifications map to 409 and 500, and two errors of the
same classification get the same code. -/
theorem c2_backend_classification_determines_code_witness :
    ((CatalogBackendError.mk .ConcurrentModification [] ⟨"database error", 0⟩).toErrorModel.code =
        409 ∧
      (CatalogBackendError.mk .Unexpected [] ⟨"database error", 1⟩).toErrorModel.code = 500) ∧
    (CatalogBackendError.mk .Unexpected [] ⟨"x", 0⟩).toErrorModel.code =
      (CatalogBackendError.mk .Unexpected ["ctx"] ⟨"y", 2⟩).toErrorModel.code :=
  ⟨c2_backend_classification_determines_code.2.2.2.2 _ _ rfl rfl rfl,
    c2_backend_classification_determines_code.2.2.2.1 _ _ rfl⟩

/-- C3: `require_warehouse_by_id` is `get_warehouse_by_id` plus a not-found check:
a present record is returned unchanged, an empty result becomes a
`WarehouseIdNotFound` carrying the requested id (wrapped through the get-error
`From` conversion), and a get error is re-raised unchanged. -/
theorem c3_require_is_get_plus_not_found_check :
    (∀ (wid : WarehouseId) (r : GetWarehouseResponse),
      require_warehouse_by_id wid (.ok (some r)) = .ok r) ∧
    (∀ wid : WarehouseId,
      require_warehouse_by_id wid (.ok none) =
        .error (.WarehouseIdNotFound
          ((WarehouseIdNotFound.new wid).append_detail GET_ERROR_STACK)) ∧
      ((WarehouseIdNotFound.new wid).append_detail GET_ERROR_STACK).warehouse_id = wid) ∧
    (∀ (wid : WarehouseId) (e : CatalogGetWarehouseByIdError),
      require_warehouse_by_id wid (.error e) = .error e) :=
  ⟨fun _ _ => rfl, fun _ => ⟨rfl, rfl⟩, fun _ _ => rfl⟩

/-- C4: each `From` conversion into a per-operation error enum appends exactly its
operation's fixed context string to the end of the stack and changes nothing else:
the result is the same error with stack `old ++ [context]`, so the new stack has
length old + 1 with the prior entries unchanged and in order. -/
theorem c4_from_appends_one_operation_context :
    (∀ e : CatalogBackendError,
      CatalogCreateWarehouseError.from_catalog_backend_error e =
        .CatalogBackendError
          { e with stack := e.stack ++ ["Error creating warehouse in catalog"] } ∧
      CatalogDeleteWarehouseError.from_catalog_backend_error e =
        .CatalogBackendError
          { e with stack := e.stack ++ ["Error deleting warehouse in catalog"] } ∧
      CatalogRenameWarehouseError.from_catalog_backend_error e =
        .CatalogBackendError
          { e with stack := e.stack ++ ["Error renaming warehouse in catalog"] } ∧
      CatalogListWarehousesError.from_catalog_backend_error e =
        .CatalogBackendError
          { e with stack := e.stack ++ ["Error listing warehouses in catalog"] } ∧
      CatalogGetWarehouseByIdError.from_catalog_backend_error e =
        .CatalogBackendError
          { e with stack := e.stack ++ ["Error getting warehouse by id in catalog"] }) ∧
    (∀ e : WarehouseAlreadyExists,
      CatalogCreateWarehouseError.from_warehouse_already_exists e =
        .WarehouseAlreadyExists
          { e with stack := e.stack ++ ["Error creating warehouse in catalog"] }) ∧
    (∀ e : StorageProfileSerializationError,
      CatalogCreateWarehouseError.from_storage_profile_serialization_error e =
        .StorageProfileSerializationError
          { e with stack := e.stack ++ ["Error creating warehouse in catalog"] }) ∧
    (∀ e : ProjectIdNotFoundError,
      CatalogCreateWarehouseError.from_project_id_not_found_error e =
        .ProjectIdNotFoundError
          { e with stack := e.stack ++ ["Error creating warehouse in catalog"] }) ∧
    (∀ e : WarehouseIdNotFound,
      CatalogDeleteWarehouseError.from_warehouse_id_not_found e =
        .WarehouseIdNotFound
          { e with stack := e.stack ++ ["Error deleting warehouse in catalog"] } ∧
      CatalogRenameWarehouseError.from_warehouse_id_not_found e =
        .WarehouseIdNotFound
          { e with stack := e.stack ++ ["Error renaming warehouse in catalog"] } ∧
      CatalogGetWarehouseByIdError.from_warehouse_id_not_found e =
        .WarehouseIdNotFound
          { e with stack := e.stack ++ ["Error getting warehouse by id in catalog"] }) ∧
    (∀ e : DatabaseIntegrityError,
      CatalogListWarehousesError.from_database_integrity_error e =
        .DatabaseIntegrityError
          { e with stack := e.stack ++ ["Error listing warehouses in catalog"] } ∧
      CatalogGetWarehouseByIdError.from_database_integrity_error e =
        .DatabaseIntegrityError
          { e with stack := e.stack ++ ["Error getting warehouse by id in catalog"] }) ∧
    (∀ e : WarehouseHasUnfinishedTasks,
      CatalogDeleteWarehouseError.from_warehouse_has_unfinished_tasks e =
        .WarehouseHasUnfinishedTasks
          { e with stack := e.stack ++ ["Error deleting warehouse in catalog"] }) ∧
    (∀ e : WarehouseNotEmpty,
      CatalogDeleteWarehouseError.from_warehouse_not_empty e =
        .WarehouseNotEmpty
          { e with stack := e.stack ++ ["Error deleting warehouse in catalog"] }) ∧
    (∀ e : WarehouseProtected,
      CatalogDeleteWarehouseError.from_warehouse_protected e =
        .WarehouseProtected
          { e with stack := e.stack ++ ["Error deleting warehouse in catalog"] }) ∧
    (∀ e : CatalogBackendError,
      (e.append_detail CREATE_ERROR_STACK).stack.length = e.stack.length + 1) :=
  ⟨fun _ => ⟨rfl, rfl, rfl, rfl, rfl⟩, fun _ => rfl, fun _ => rfl, fun _ => rfl,
    fun _ => ⟨rfl, rfl, rfl⟩, fun _ => ⟨rfl, rfl⟩, fun _ => rfl, fun _ => rfl, fun _ => rfl,
    fun e => by simp [CatalogBackendError.append_detail]⟩

/-- C5: for every domain error, appending a list of N details and then a list of M
details extends the stack by exactly those entries in append order (new stack =
old ++ first list ++ second list, of length old + N + M), and `append_detail` is
`append_details` on the singleton list. -/
theorem c5_append_details_order_and_length :
    (∀ (e : CatalogBackendError) (ds1 ds2 : List String),
      ((e.append_details ds1).append_details ds2).stack = e.stack ++ ds1 ++ ds2 ∧
      ((e.append_details ds1).append_details ds2).stack.length =
        e.stack.length + ds1.length + ds2.length) ∧
    (∀ (e : CatalogBackendError) (d : String), e.append_detail d = e.append_details [d]) ∧
    (∀ (e : DatabaseIntegrityError) (ds1 ds2 : List String),
      ((e.append_details ds1).append_details ds2).stack = e.stack ++ ds1 ++ ds2 ∧
      ((e.append_details ds1).append_details ds2).stack.length =
        e.stack.length + ds1.length + ds2.length) ∧
    (∀ (e : DatabaseIntegrityError) (d : String), e.append_detail d = e.append_details [d]) ∧
    (∀ (e : WarehouseIdNotFound) (ds1 ds2 : List String),
      ((e.append_details ds1).append_details ds2).stack = e.stack ++ ds1 ++ ds2 ∧
      ((e.append_details ds1).append_details ds2).stack.length =
        e.stack.length + ds1.length + ds2.length) ∧
    (∀ (e : WarehouseIdNotFound) (d : String), e.append_detail d = e.append_details [d]) ∧
    (∀ (e : WarehouseAlreadyExists) (ds1 ds2 : List String),
      ((e.append_details ds1).append_details ds2).stack = e.stack ++ ds1 ++ ds2 ∧
      ((e.append_details ds1).append_details ds2).stack.length =
        e.stack.length + ds1.length + ds2.length) ∧
    (∀ (e : WarehouseAlreadyExists) (d : String), e.append_detail d = e.append_details [d]) ∧
    (∀ (e : StorageProfileSerializationError) (ds1 ds2 : List String),
      ((e.append_details ds1).append_details ds2).stack = e.stack ++ ds1 ++ ds2 ∧
      ((e.append_details ds1).append_details ds2).stack.length =
        e.stack.length + ds1.length + ds2.length) ∧
    (∀ (e : StorageProfileSerializationError) (d : String),
      e.append_detail d = e.append_details [d]) ∧
    (∀ (e : ProjectIdNotFoundError) (ds1 ds2 : List String),
      ((e.append_details ds1).append_details ds2).stack = e.stack ++ ds1 ++ ds2 ∧
      ((e.append_details ds1).append_details ds2).stack.length =
        e.stack.length + ds1.length + ds2.length) ∧
    (∀ (e : ProjectIdNotFoundError) (d : String), e.append_detail d = e.append_details [d]) ∧
    (∀ (e : WarehouseHasUnfinishedTasks) (ds1 ds2 : List String),
      ((e.append_details ds1).append_details ds2).stack = e.stack ++ ds1 ++ ds2 ∧
      ((e.append_details ds1).append_details ds2).stack.length =
        e.stack.length + ds1.length + ds2.length) ∧
    (∀ (e : WarehouseHasUnfinishedTasks) (d : String),
      e.append_detail d = e.append_details [d]) ∧
    (∀ (e : WarehouseNotEmpty) (ds1 ds2 : List String),
      ((e.append_details ds1).append_details ds2).stack = e.stack ++ ds1 ++ ds2 ∧
      ((e.append_details ds1).append_details ds2).stack.length =
        e.stack.length + ds1.length + ds2.length) ∧
    (∀ (e : WarehouseNotEmpty) (d : String), e.append_detail d = e.append_details [d]) ∧
    (∀ (e : WarehouseProtected) (ds1 ds2 : List String),
      ((e.append_details ds1).append_details ds2).stack = e.stack ++ ds1 ++ ds2 ∧
      ((e.append_details ds1).append_details ds2).stack.length =
        e.stack.length + ds1.length + ds2.length) ∧
    (∀ (e : WarehouseProtected) (d : String), e.append_detail d = e.append_details [d]) :=
  ⟨fun e ds1 ds2 => ⟨rfl, by simp [CatalogBackendError.append_details]; omega⟩, fun _ _ => rfl,
    fun e ds1 ds2 => ⟨rfl, by simp [DatabaseIntegrityError.append_details]; omega⟩, fun _ _ => rfl,
    fun e ds1 ds2 => ⟨rfl, by simp [WarehouseIdNotFound.append_details]; omega⟩, fun _ _ => rfl,
    fun e ds1 ds2 => ⟨rfl, by simp [WarehouseAlreadyExists.append_details]; omega⟩, fun _ _ => rfl,
    fun e ds1 ds2 => ⟨rfl, by simp [StorageProfileSerializationError.append_details]; omega⟩,
    fun _ _ => rfl,
    fun e ds1 ds2 => ⟨rfl, by simp [ProjectIdNotFoundError.append_details]; omega⟩, fun _ _ => rfl,
    fun e ds1 ds2 => ⟨rfl, by simp [WarehouseHasUnfinishedTasks.append_details]; omega⟩,
    fun _ _ => rfl,
    fun e ds1 ds2 => ⟨rfl, by simp [WarehouseNotEmpty.append_details]; omega⟩, fun _ _ => rfl,
    fun e ds1 ds2 => ⟨rfl, by simp [WarehouseProtected.append_details]; omega⟩, fun _ _ => rfl⟩

/-- C6: listing without an explicit status set returns only Active records (never
an Inactive one), and a non-empty status set returns exactly the project's
warehouses whose status lies in the set. -/
theorem c6_list_status_filter :
    (∀ (pid : ProjectId) (state : List GetWarehouseResponse) (w : GetWarehouseResponse),
      w ∈ list_warehouses pid none state →
        w.status = WarehouseStatus.Active ∧ w.status ≠ WarehouseStatus.Inactive) ∧
    (∀ (pid : ProjectId) (ss : List WarehouseStatus) (state : List GetWarehouseResponse)
        (w : GetWarehouseResponse), ss ≠ [] →
      (w ∈ list_warehouses pid (some ss) state ↔
        w ∈ state ∧ w.project_id = pid ∧ w.status ∈ ss)) := by
  constructor
  · intro pid state w hw
    simp only [list_warehouses, Option.getD, List.mem_filter, Bool.and_eq_true,
      beq_iff_eq, List.contains, List.elem_iff, List.mem_singleton] at hw
    refine ⟨hw.2.2, ?_⟩
    rw [hw.2.2]
    intro hcontra
    exact WarehouseStatus.noConfusion hcontra
  · intro pid ss state w _
    simp only [list_warehouses, Option.getD, List.mem_filter, Bool.and_eq_true,
      beq_iff_eq, List.contains, List.elem_iff]

/-- Witness for C6 at a concrete read state of one Active and one Inactive
warehouse in project 7: the Active record returned by the unfiltered listing has
status Active, and the Inactive record is listed exactly when the supplied
non-empty status set contains Inactive. -/
theorem c6_list_status_filter_witness :
    ((⟨1, "sales", 7, 0, none, .Active, 0, false⟩ : GetWarehouseResponse).status =
        WarehouseStatus.Active ∧
      (⟨1, "sales", 7, 0, none, .Active, 0, false⟩ : GetWarehouseResponse).status ≠
        WarehouseStatus.Inactive) ∧
    ((⟨2, "ops", 7, 0, none, .Inactive, 0, false⟩ : GetWarehouseResponse) ∈
        list_warehouses 7 (some [WarehouseStatus.Active, WarehouseStatus.Inactive])
          [⟨1, "sales", 7, 0, none, .Active, 0, false⟩,
            ⟨2, "ops", 7, 0, none, .Inactive, 0, false⟩] ↔
      (⟨2, "ops", 7, 0, none, .Inactive, 0, false⟩ : GetWarehouseResponse) ∈
          [⟨1, "sales", 7, 0, none, .Active, 0, false⟩,
            ⟨2, "ops", 7, 0, none, .Inactive, 0, false⟩] ∧
        (⟨2, "ops", 7, 0, none, .Inactive, 0, false⟩ : GetWarehouseResponse).project_id = 7 ∧
        (⟨2, "ops", 7, 0, none, .Inactive, 0, false⟩ : GetWarehouseResponse).status ∈
          [WarehouseStatus.Active, WarehouseStatus.Inactive]) :=
  ⟨c6_list_status_filter.1 7
      [⟨1, "sales", 7, 0, none, .Active, 0, false⟩, ⟨2, "ops", 7, 0, none, .Inactive, 0, false⟩]
      ⟨1, "sales", 7, 0, none, .Active, 0, false⟩ (by decide),
    c6_list_status_filter.2 7 [WarehouseStatus.Active, WarehouseStatus.Inactive]
      [⟨1, "sales", 7, 0, none, .Active, 0, false⟩, ⟨2, "ops", 7, 0, none, .Inactive, 0, false⟩]
      ⟨2, "ops", 7, 0, none, .Inactive, 0, false⟩ (by decide)⟩

/-- C7: the `PartialEq` of `CatalogBackendError` holds exactly when classification,
context stack, and the string rendering of the boxed source agree; structural
identity of the source is not compared, so two errors whose sources differ
structurally but render to the same text are equal. -/
theorem c7_backend_eq_compares_rendering :
    (∀ a b : CatalogBackendError,
      CatalogBackendError.eq a b = true ↔
        (a.type = b.type ∧ a.stack = b.stack ∧ a.source.rendered = b.source.rendered)) ∧
    (CatalogBackendError.eq
        (CatalogBackendError.mk .Unexpected ["ctx"] ⟨"io failure", 0⟩)
        (CatalogBackendError.mk .Unexpected ["ctx"] ⟨"io failure", 1⟩) = true ∧
      (CatalogBackendError.mk .Unexpected ["ctx"] ⟨"io failure", 0⟩).source ≠
        (CatalogBackendError.mk .Unexpected ["ctx"] ⟨"io failure", 1⟩).source) :=
  ⟨fun a b => by
      simp [CatalogBackendError.eq, Bool.and_eq_true, beq_iff_eq, and_assoc],
    by decide⟩

/-- C8: in the wire record, the chained-source field is populated exactly for
`StorageProfileSerializationError` (carrying its serialization failure); every
other error of the lifecycle layer, standalone or wrapped in a per-operation
enum, converts with `source = none`. -/
theorem c8_wire_source_only_for_serialization :
    (∀ e : CatalogBackendError, e.toErrorModel.source = none) ∧
    (∀ e : DatabaseIntegrityError, e.toErrorModel.source = none) ∧
    (∀ e : WarehouseIdNotFound, e.toErrorModel.source = none) ∧
    (∀ e : StorageProfileSerializationError,
      (CatalogCreateWarehouseError.StorageProfileSerializationError e).toErrorModel.source =
        some e.source) ∧
    (∀ e : WarehouseAlreadyExists,
      (CatalogCreateWarehouseError.WarehouseAlreadyExists e).toErrorModel.source = none) ∧
    (∀ e : ProjectIdNotFoundError,
      (CatalogCreateWarehouseError.ProjectIdNotFoundError e).toErrorModel.source = none) ∧
    (∀ e : CatalogBackendError,
      (CatalogCreateWarehouseError.CatalogBackendError e).toErrorModel.source = none) ∧
    (∀ err : CatalogDeleteWarehouseError, err.toErrorModel.source = none) ∧
    (∀ err : CatalogRenameWarehouseError, err.toErrorModel.source = none) ∧
    (∀ err : CatalogListWarehousesError, err.toErrorModel.source = none) ∧
    (∀ err : CatalogGetWarehouseByIdError, err.toErrorModel.source = none) :=
  ⟨fun _ => rfl, fun _ => rfl, fun _ => rfl, fun _ => rfl, fun _ => rfl, fun _ => rfl,
    fun _ => rfl,
    fun err => by cases err <;> rfl,
    fun err => by cases err <;> rfl,
    fun err => by cases err <;> rfl,
    fun err => by cases err <;> rfl⟩

/-- C9: the four append operations are frame-preserving — on every error type
they change only the context stack, leaving the backend classification and boxed
source, the integrity message, the warehouse id, the warehouse name and the
project id untouched. -/
theorem c9_append_only_touches_stack :
    (∀ (e : CatalogBackendError) (d : String) (ds : List String),
      (e.append_detail d).type = e.type ∧ (e.append_detail d).source = e.source ∧
      (e.append_details ds).type = e.type ∧ (e.append_details ds).source = e.source ∧
      (e.append_detail_mut d).type = e.type ∧ (e.append_detail_mut d).source = e.source ∧
      (e.append_details_mut ds).type = e.type ∧ (e.append_details_mut ds).source = e.source) ∧
    (∀ (e : DatabaseIntegrityError) (d : String) (ds : List String),
      (e.append_detail d).message = e.message ∧ (e.append_details ds).message = e.message ∧
      (e.append_detail_mut d).message = e.message ∧
      (e.append_details_mut ds).message = e.message) ∧
    (∀ (e : WarehouseIdNotFound) (d : String) (ds : List String),
      (e.append_detail d).warehouse_id = e.warehouse_id ∧
      (e.append_details ds).warehouse_id = e.warehouse_id ∧
      (e.append_detail_mut d).warehouse_id = e.warehouse_id ∧
      (e.append_details_mut ds).warehouse_id = e.warehouse_id) ∧
    (∀ (e : WarehouseAlreadyExists) (d : String) (ds : List String),
      (e.append_detail d).warehouse_name = e.warehouse_name ∧
      (e.append_detail d).project_id = e.project_id ∧
      (e.append_details ds).warehouse_name = e.warehouse_name ∧
      (e.append_details ds).project_id = e.project_id ∧
      (e.append_detail_mut d).warehouse_name = e.warehouse_name ∧
      (e.append_detail_mut d).project_id = e.project_id ∧
      (e.append_details_mut ds).warehouse_name = e.warehouse_name ∧
      (e.append_details_mut ds).project_id = e.project_id) ∧
    (∀ (e : StorageProfileSerializationError) (d : String) (ds : List String),
      (e.append_detail d).source = e.source ∧ (e.append_details ds).source = e.source ∧
      (e.append_detail_mut d).source = e.source ∧
      (e.append_details_mut ds).source = e.source) ∧
    (∀ (e : ProjectIdNotFoundError) (d : String) (ds : List String),
      (e.append_detail d).project_id = e.project_id ∧
      (e.append_details ds).project_id = e.project_id ∧
      (e.append_detail_mut d).project_id = e.project_id ∧
      (e.append_details_mut ds).project_id = e.project_id) :=
  ⟨fun _ _ _ => ⟨rfl, rfl, rfl, rfl, rfl, rfl, rfl, rfl⟩,
    fun _ _ _ => ⟨rfl, rfl, rfl, rfl⟩,
    fun _ _ _ => ⟨rfl, rfl, rfl, rfl⟩,
    fun _ _ _ => ⟨rfl, rfl, rfl, rfl, rfl, rfl, rfl, rfl⟩,
    fun _ _ _ => ⟨rfl, rfl, rfl, rfl⟩,
    fun _ _ _ => ⟨rfl, rfl, rfl, rfl⟩⟩

/-- C10: when `require_warehouse_by_id` turns an empty get result into an error,
the error is a freshly constructed `WarehouseIdNotFound` (empty stack) run through
the get-operation `From` conversion, so its context stack is exactly the
one-element list naming the get operation. -/
theorem c10_require_not_found_fresh_with_get_context :
    ∀ wid : WarehouseId,
      (WarehouseIdNotFound.new wid).stack = [] ∧
      require_warehouse_by_id wid (.ok none) =
        .error (.WarehouseIdNotFound
          { warehouse_id := wid, stack := ["Error getting warehouse by id in catalog"] }) ∧
      CatalogGetWarehouseByIdError.from_warehouse_id_not_found (WarehouseIdNotFound.new wid) =
        .WarehouseIdNotFound
          { warehouse_id := wid, stack := [GET_ERROR_STACK] } :=
  fun _ => ⟨rfl, rfl, rfl⟩

end Lakekeeper
